import Mathlib

/-!
Verification of the pnp-protocol/solana-skill repository.

The repository is documentation plus thin CLI wrapper scripts around the
external `pnp-sdk` client.  The one computational component it documents in
full is the V2 AMM pricing formula (src/unnamed/part_000, "V2 AMM Price
Formulas", and src/SKILL.md, `getMarketPriceV2`):

  denominator   = yesSupply^2 + noSupply^2
  yesPrice      = (collateralReserves * yesSupply) / denominator
  noPrice       = (collateralReserves * noSupply)  / denominator
  yesMultiplier = 1 + (noSupply / yesSupply)^2
  noMultiplier  = 1 + (yesSupply / noSupply)^2

Decimal quantities are embedded as rationals (ℚ); the CLI control flow of
`settle.ts` and `trade.ts` is embedded as total functions over explicit
argument/environment records.
-/

namespace PnP

/-- On-chain state of one binary market, in UI decimal units
(spec §3, `MarketSnapshot`). -/
structure MarketSnapshot where
  collateralReserves : ℚ
  yesSupply : ℚ
  noSupply : ℚ
  deriving Repr, DecidableEq

/-- Output of the pricing engine (spec §3, `PriceQuote`). -/
structure PriceQuote where
  yesPrice : ℚ
  noPrice : ℚ
  yesMultiplier : ℚ
  noMultiplier : ℚ
  deriving Repr, DecidableEq

/-- Error taxonomy of the pricing engine (spec §7). -/
inductive PricingError where
  | InvalidArgument
  | DomainError
  deriving Repr, DecidableEq

/-- Modelled from the spec: the repository documents the V2 AMM formula
(src/unnamed/part_000 lines 393–404, src/SKILL.md `getMarketPriceV2`) but
ships no standalone `computePrices` implementation; the edge-case policy is
taken from spec §4.  Negative inputs fail with `InvalidArgument`; a zero
supply on either side makes a multiplier (or, when both are zero, the price
denominator) undefined and fails with `DomainError` — the spec leaves the
one-sided-zero case open between `DomainError` and a sentinel, and this
model fixes the `DomainError` policy.  Otherwise the documented formulas
are evaluated exactly over ℚ. -/
def computePrices (s : MarketSnapshot) : Except PricingError PriceQuote :=
  if s.collateralReserves < 0 ∨ s.yesSupply < 0 ∨ s.noSupply < 0 then
    .error .InvalidArgument
  else if s.yesSupply = 0 ∨ s.noSupply = 0 then
    .error .DomainError
  else
    let denominator := s.yesSupply ^ 2 + s.noSupply ^ 2
    .ok
      { yesPrice := s.collateralReserves * s.yesSupply / denominator
        noPrice := s.collateralReserves * s.noSupply / denominator
        yesMultiplier := 1 + (s.noSupply / s.yesSupply) ^ 2
        noMultiplier := 1 + (s.yesSupply / s.noSupply) ^ 2 }

end PnP

namespace PnP

/-- Unfolding of `computePrices` on a snapshot with nonnegative reserves and
strictly positive supplies: the guards pass and the documented formulas are
returned verbatim. -/
lemma computePrices_eq_ok (s : MarketSnapshot)
    (hc : 0 ≤ s.collateralReserves) (hy : 0 < s.yesSupply) (hn : 0 < s.noSupply) :
    computePrices s = .ok
      { yesPrice := s.collateralReserves * s.yesSupply / (s.yesSupply ^ 2 + s.noSupply ^ 2)
        noPrice := s.collateralReserves * s.noSupply / (s.yesSupply ^ 2 + s.noSupply ^ 2)
        yesMultiplier := 1 + (s.noSupply / s.yesSupply) ^ 2
        noMultiplier := 1 + (s.yesSupply / s.noSupply) ^ 2 } := by
  unfold computePrices
  rw [if_neg, if_neg]
  · push_neg
    exact ⟨hy.ne', hn.ne'⟩
  · push_neg
    exact ⟨hc, hy.le, hn.le⟩

/-- Whenever `computePrices` succeeds, the snapshot had nonnegative reserves
and strictly positive supplies, and the quote is the documented formula. -/
lemma computePrices_ok_inv (s : MarketSnapshot) (q : PriceQuote)
    (h : computePrices s = .ok q) :
    0 ≤ s.collateralReserves ∧ 0 < s.yesSupply ∧ 0 < s.noSupply ∧
    q = { yesPrice := s.collateralReserves * s.yesSupply / (s.yesSupply ^ 2 + s.noSupply ^ 2)
          noPrice := s.collateralReserves * s.noSupply / (s.yesSupply ^ 2 + s.noSupply ^ 2)
          yesMultiplier := 1 + (s.noSupply / s.yesSupply) ^ 2
          noMultiplier := 1 + (s.yesSupply / s.noSupply) ^ 2 } := by
  unfold computePrices at h
  split_ifs at h with h1 h2
  push_neg at h1 h2
  obtain ⟨hc, hy, hn⟩ := h1
  obtain ⟨hy0, hn0⟩ := h2
  refine ⟨hc, lt_of_le_of_ne hy (Ne.symm hy0),
    lt_of_le_of_ne hn (Ne.symm hn0), ?_⟩
  injection h with h
  exact h.symm

/-- C1: On the snapshot (1000, 650, 350) the engine returns
yesPrice = 650000/545000, noPrice = 350000/545000,
yesMultiplier = 1 + (350/650)^2 and noMultiplier = 1 + (650/350)^2,
each within absolute tolerance 1e-9 (here: exactly). -/
theorem computePrices_concrete_scenario :
    ∃ q : PriceQuote,
      computePrices ⟨1000, 650, 350⟩ = .ok q ∧
      |q.yesPrice - 650000 / 545000| ≤ 1 / 1000000000 ∧
      |q.noPrice - 350000 / 545000| ≤ 1 / 1000000000 ∧
      |q.yesMultiplier - (1 + (350 / 650 : ℚ) ^ 2)| ≤ 1 / 1000000000 ∧
      |q.noMultiplier - (1 + (650 / 350 : ℚ) ^ 2)| ≤ 1 / 1000000000 := by
  refine ⟨_, rfl, ?_, ?_, ?_, ?_⟩ <;> norm_num [computePrices]

/-- C2 counterexample: on the valid snapshot (1000, 650, 350) the engine
succeeds but returns yesPrice = 130/109 > 1, so the returned prices do not
always lie in [0, 1]. -/
theorem yesPrice_not_in_unit_interval :
    ¬ (∀ (s : MarketSnapshot) (q : PriceQuote),
        computePrices s = .ok q → q.yesPrice ≤ 1) := by
  intro h
  have := h ⟨1000, 650, 350⟩ _ rfl
  norm_num [computePrices] at this

/-- C2 (amended): for every MarketSnapshot on which computePrices succeeds,
the returned yesPrice and noPrice are each nonnegative (but need not be at
most 1). -/
theorem computePrices_prices_nonneg (s : MarketSnapshot) (q : PriceQuote)
    (h : computePrices s = .ok q) : 0 ≤ q.yesPrice ∧ 0 ≤ q.noPrice := by
  obtain ⟨hc, hy, hn, hq⟩ := computePrices_ok_inv s q h
  subst hq
  constructor <;> exact div_nonneg (by positivity) (by positivity)

/-- C2 witness: the amended nonnegativity bound at the concrete snapshot
(1000, 650, 350). -/
theorem computePrices_prices_nonneg_witness :
    ∃ q, computePrices ⟨1000, 650, 350⟩ = .ok q ∧ 0 ≤ q.yesPrice ∧ 0 ≤ q.noPrice :=
  ⟨_, rfl, computePrices_prices_nonneg ⟨1000, 650, 350⟩ _ rfl⟩

/-- C3: with both supplies zero and nonnegative collateral reserves,
computePrices fails with DomainError; in particular no PriceQuote (and
hence nothing NaN-like) is returned. -/
theorem computePrices_both_zero_domainError (c : ℚ) (hc : 0 ≤ c) :
    computePrices ⟨c, 0, 0⟩ = .error .DomainError := by
  unfold computePrices
  rw [if_neg, if_pos (Or.inl rfl)]
  push_neg
  exact ⟨hc, le_refl 0, le_refl 0⟩

/-- C3 witness: concrete instance at collateralReserves = 5. -/
theorem computePrices_both_zero_domainError_witness :
    0 ≤ (5 : ℚ) ∧ computePrices ⟨5, 0, 0⟩ = .error .DomainError :=
  ⟨by norm_num, computePrices_both_zero_domainError 5 (by norm_num)⟩

/-- C4: any negative field makes computePrices fail with InvalidArgument,
never returning a numeric PriceQuote. -/
theorem computePrices_negative_invalidArgument (s : MarketSnapshot)
    (h : s.collateralReserves < 0 ∨ s.yesSupply < 0 ∨ s.noSupply < 0) :
    computePrices s = .error .InvalidArgument := by
  unfold computePrices
  rw [if_pos h]

/-- C4 witness: concrete instance with negative reserves. -/
theorem computePrices_negative_invalidArgument_witness :
    ((-1 : ℚ) < 0 ∨ (2 : ℚ) < 0 ∨ (3 : ℚ) < 0) ∧
      computePrices ⟨-1, 2, 3⟩ = .error .InvalidArgument :=
  ⟨Or.inl (by norm_num),
    computePrices_negative_invalidArgument ⟨-1, 2, 3⟩ (Or.inl (by norm_num))⟩

/-- C5: with equal positive supplies the engine succeeds with
yesPrice = noPrice and yesMultiplier = noMultiplier = 2. -/
theorem computePrices_symmetry (c S : ℚ) (hc : 0 ≤ c) (hS : 0 < S) :
    ∃ q, computePrices ⟨c, S, S⟩ = .ok q ∧ q.yesPrice = q.noPrice ∧
      q.yesMultiplier = 2 ∧ q.noMultiplier = 2 := by
  refine ⟨_, computePrices_eq_ok ⟨c, S, S⟩ hc hS hS, rfl, ?_, ?_⟩ <;>
    · show 1 + (S / S) ^ 2 = 2
      rw [div_self hS.ne']
      norm_num

/-- C5 witness: concrete instance at c = 7, S = 3. -/
theorem computePrices_symmetry_witness :
    0 ≤ (7 : ℚ) ∧ 0 < (3 : ℚ) ∧
      ∃ q, computePrices ⟨7, 3, 3⟩ = .ok q ∧ q.yesPrice = q.noPrice ∧
        q.yesMultiplier = 2 ∧ q.noMultiplier = 2 :=
  ⟨by norm_num, by norm_num, computePrices_symmetry 7 3 (by norm_num) (by norm_num)⟩

/-- C6: scaling both supplies by any positive constant k leaves both payout
multipliers unchanged — they depend only on the supply ratio. -/
theorem computePrices_multiplier_scale_invariant (c y n k : ℚ)
    (hc : 0 ≤ c) (hy : 0 < y) (hn : 0 < n) (hk : 0 < k) :
    ∃ q q', computePrices ⟨c, y, n⟩ = .ok q ∧
      computePrices ⟨c, k * y, k * n⟩ = .ok q' ∧
      q'.yesMultiplier = q.yesMultiplier ∧ q'.noMultiplier = q.noMultiplier := by
  refine ⟨_, _, computePrices_eq_ok ⟨c, y, n⟩ hc hy hn,
    computePrices_eq_ok ⟨c, k * y, k * n⟩ hc (by positivity) (by positivity), ?_, ?_⟩
  · show 1 + (k * n / (k * y)) ^ 2 = 1 + (n / y) ^ 2
    rw [mul_div_mul_left n y hk.ne']
  · show 1 + (k * y / (k * n)) ^ 2 = 1 + (y / n) ^ 2
    rw [mul_div_mul_left y n hk.ne']

/-- C6 witness: concrete instance at c = 10, y = 2, n = 5, k = 3. -/
theorem computePrices_multiplier_scale_invariant_witness :
    0 ≤ (10 : ℚ) ∧ 0 < (2 : ℚ) ∧ 0 < (5 : ℚ) ∧ 0 < (3 : ℚ) ∧
      ∃ q q', computePrices ⟨10, 2, 5⟩ = .ok q ∧
        computePrices ⟨10, 3 * 2, 3 * 5⟩ = .ok q' ∧
        q'.yesMultiplier = q.yesMultiplier ∧ q'.noMultiplier = q.noMultiplier :=
  ⟨by norm_num, by norm_num, by norm_num, by norm_num,
    computePrices_multiplier_scale_invariant 10 2 5 3
      (by norm_num) (by norm_num) (by norm_num) (by norm_num)⟩

/-- C7: with zero reserves and positive supplies the engine succeeds and
both prices are exactly 0 (not an error). -/
theorem computePrices_zero_reserves (y n : ℚ) (hy : 0 < y) (hn : 0 < n) :
    ∃ q, computePrices ⟨0, y, n⟩ = .ok q ∧ q.yesPrice = 0 ∧ q.noPrice = 0 := by
  refine ⟨_, computePrices_eq_ok ⟨0, y, n⟩ le_rfl hy hn, ?_, ?_⟩ <;>
    · show (0 : ℚ) * _ / _ = 0
      rw [zero_mul, zero_div]

/-- C7 witness: the claim's particular instance yesSupply = 100,
noSupply = 50. -/
theorem computePrices_zero_reserves_witness :
    0 < (100 : ℚ) ∧ 0 < (50 : ℚ) ∧
      ∃ q, computePrices ⟨0, 100, 50⟩ = .ok q ∧ q.yesPrice = 0 ∧ q.noPrice = 0 :=
  ⟨by norm_num, by norm_num,
    computePrices_zero_reserves 100 50 (by norm_num) (by norm_num)⟩

/-- C8: with exactly one supply zero and the other positive, the engine's
behavior is fully pinned (hence deterministic): it always fails with
DomainError, the policy this model fixes for the undefined multiplier. -/
theorem computePrices_one_sided_zero_domainError (c y n : ℚ) (hc : 0 ≤ c)
    (h : (y = 0 ∧ 0 < n) ∨ (n = 0 ∧ 0 < y)) :
    computePrices ⟨c, y, n⟩ = .error .DomainError := by
  unfold computePrices
  rw [if_neg, if_pos]
  · rcases h with ⟨hy, _⟩ | ⟨hn, _⟩
    · exact Or.inl hy
    · exact Or.inr hn
  · push_neg
    rcases h with ⟨hy, hn⟩ | ⟨hn, hy⟩
    · exact ⟨hc, le_of_eq hy.symm, hn.le⟩
    · exact ⟨hc, hy.le, le_of_eq hn.symm⟩

/-- C8 witness: the claim's instance yesSupply = 0, noSupply = 100 (with
collateralReserves = 1). -/
theorem computePrices_one_sided_zero_domainError_witness :
    0 ≤ (1 : ℚ) ∧ ((0 : ℚ) = 0 ∧ 0 < (100 : ℚ)) ∧
      computePrices ⟨1, 0, 100⟩ = .error .DomainError :=
  ⟨by norm_num, ⟨rfl, by norm_num⟩,
    computePrices_one_sided_zero_domainError 1 0 100 (by norm_num)
      (Or.inl ⟨rfl, by norm_num⟩)⟩

/-! ## settle.ts CLI control flow (src/scripts/redeem.ts, second document) -/

/-- Parsed arguments of the settle CLI (`parseArgs` of settle.ts, with the
documented defaults already applied: `market` defaults to "", `outcome` to
"YES"). -/
structure SettleArgs where
  market : String
  outcome : String
  help : Bool
  status : Bool
  deriving Repr, DecidableEq

/-- The fields of `getMarketInfo` read by settle.ts. -/
structure MarketInfo where
  endTime : ℤ
  resolved : Bool
  resolvable : Bool
  winningTokenId : ℕ
  deriving Repr, DecidableEq

/-- How one run of settle.ts `main` ends: which terminal path is taken and,
for the two settle paths, with which `yesWinner` flag `client.settleMarket`
was invoked. -/
inductive SettleOutcome where
  | helpShown
  | missingMarket
  | invalidAddress
  | missingKey
  | fetchFailed
  | alreadySettled
  | statusReport
  | invalidOutcome
  | tooEarly
  | settleOk (yesWinner : Bool)
  | settleFailed (yesWinner : Bool)
  deriving Repr, DecidableEq

/-- Whether the run invoked `client.settleMarket`. -/
def settleCalled : SettleOutcome → Bool
  | .settleOk _ => true
  | .settleFailed _ => true
  | _ => false

/-- The process exit status of the run (`process.exit` argument; the
successful fall-through end of `main` exits 0). -/
def settleExitCode : SettleOutcome → ℕ
  | .helpShown => 0
  | .alreadySettled => 0
  | .statusReport => 0
  | .settleOk _ => 0
  | _ => 1

/-- `main` of settle.ts as a function of the parsed args, the environment
(`hasKey`: PRIVATE_KEY set; `validAddr`: the market string parses as a
PublicKey; `fetchOk`: `getMarketInfo` does not throw, in which case `info`
is the fetched market account), whether the `settleMarket` RPC succeeds,
and the current Unix time `now`.  Mirrors the check order of the script. -/
def settleMain (args : SettleArgs) (hasKey validAddr fetchOk : Bool)
    (info : MarketInfo) (sdkOk : Bool) (now : ℤ) : SettleOutcome :=
  if args.help then .helpShown
  else if args.market = "" then .missingMarket
  else if validAddr = false then .invalidAddress
  else if args.status = false ∧ hasKey = false then .missingKey
  else if fetchOk = false then .fetchFailed
  else if info.resolved then .alreadySettled
  else if args.status then .statusReport
  else if args.outcome ≠ "YES" ∧ args.outcome ≠ "NO" then .invalidOutcome
  else if now < info.endTime then .tooEarly
  else if sdkOk then .settleOk (args.outcome == "YES")
  else .settleFailed (args.outcome == "YES")

/-- C9: in a non-help, non-status run of the settle CLI on an unresolved
market, a current time strictly before endTime ends the run with exit
status 1 without invoking `client.settleMarket`; and whenever
`client.settleMarket` is invoked, the outcome flag is YES or NO and the
current time is at least endTime (the market being unresolved is the
standing hypothesis). -/
theorem settleMain_endTime_guard (args : SettleArgs)
    (hasKey validAddr fetchOk : Bool) (info : MarketInfo) (sdkOk : Bool)
    (now : ℤ)
    (hhelp : args.help = false) (hstatus : args.status = false)
    (hres : info.resolved = false) :
    (now < info.endTime →
      settleExitCode (settleMain args hasKey validAddr fetchOk info sdkOk now) = 1 ∧
      settleCalled (settleMain args hasKey validAddr fetchOk info sdkOk now) = false) ∧
    (settleCalled (settleMain args hasKey validAddr fetchOk info sdkOk now) = true →
      (args.outcome = "YES" ∨ args.outcome = "NO") ∧ info.endTime ≤ now) := by
  constructor
  · intro hnow
    unfold settleMain
    split_ifs <;> simp_all [settleExitCode, settleCalled]
  · intro hcall
    by_cases hout : args.outcome = "YES" ∨ args.outcome = "NO"
    · by_cases htime : now < info.endTime
      · exfalso
        unfold settleMain at hcall
        split_ifs at hcall <;> simp_all [settleCalled]
      · exact ⟨hout, not_lt.mp htime⟩
    · exfalso
      have hne : args.outcome ≠ "YES" ∧ args.outcome ≠ "NO" := by
        push_neg at hout
        exact hout
      unfold settleMain at hcall
      split_ifs at hcall <;> simp_all [settleCalled]

/-- C9 witness: a non-help, non-status run on an unresolved market with
endTime 100 at current time 50 exits with status 1 and does not invoke
settleMarket. -/
theorem settleMain_endTime_guard_witness :
    settleExitCode
        (settleMain ⟨"Mkt", "YES", false, false⟩ true true true
          ⟨100, false, true, 0⟩ true 50) = 1 ∧
      settleCalled
        (settleMain ⟨"Mkt", "YES", false, false⟩ true true true
          ⟨100, false, true, 0⟩ true 50) = false :=
  (settleMain_endTime_guard ⟨"Mkt", "YES", false, false⟩ true true true
    ⟨100, false, true, 0⟩ true 50 rfl rfl rfl).1 (by decide)

/-! ## trade.ts CLI control flow (src/unnamed/part_001) -/

/-- Parsed arguments of the trade CLI (`parseArgs` of trade.ts, defaults
applied: `action` defaults to "buy", `outcome` to "YES", `decimals` to 6).
`amount` is the value `parseFloat(args.amount)` of the amount string. -/
structure TradeArgs where
  market : String
  action : String
  outcome : String
  amount : ℚ
  decimals : ℤ
  help : Bool
  info : Bool
  deriving Repr, DecidableEq

/-- The SDK trading call issued by one run of trade.ts `main`. -/
inductive TradeCall where
  | buyTokensUsdc (buyYes : Bool) (amountUsdc : ℚ)
  | burnDecisionTokensDerived (burnYes : Bool) (amount : ℤ)
  deriving Repr, DecidableEq

/-- The SDK trading call made by trade.ts `main` (`none` when an earlier
exit, the info-only path, or a validation failure prevents any trade).
`hasKey`, `validAddr`, `fetchOk` play the same roles as in `settleMain`.
Mirrors the check order of the script; the sell branch computes
`BigInt(Math.floor(parseFloat(args.amount) * Math.pow(10, 18)))`. -/
def tradeSdkCall (args : TradeArgs) (hasKey validAddr fetchOk : Bool) :
    Option TradeCall :=
  if args.help then none
  else if args.market = "" then none
  else if validAddr = false then none
  else if args.info = false ∧ hasKey = false then none
  else if fetchOk = false then none
  else if args.info then none
  else if args.amount ≤ 0 then none
  else if args.outcome ≠ "YES" ∧ args.outcome ≠ "NO" then none
  else if args.action = "buy" then
    some (.buyTokensUsdc (args.outcome == "YES") args.amount)
  else
    some (.burnDecisionTokensDerived (args.outcome == "YES")
      ⌊args.amount * 10 ^ 18⌋)

/-- C10: in every sell run of the trade CLI that reaches an SDK call, the
raw amount passed to `burnDecisionTokensDerived` is ⌊amount * 10^18⌋ — the
sell path always scales by 18 decimals — and the call issued is independent
of the `decimals` field (the --decimals flag, default 6). -/
theorem tradeSdkCall_sell_scales_18 (args : TradeArgs)
    (hasKey validAddr fetchOk : Bool) (hsell : args.action = "sell") :
    (∀ c, tradeSdkCall args hasKey validAddr fetchOk = some c →
      c = .burnDecisionTokensDerived (args.outcome == "YES")
        ⌊args.amount * 10 ^ 18⌋) ∧
    (∀ d : ℤ, tradeSdkCall { args with decimals := d } hasKey validAddr fetchOk =
      tradeSdkCall args hasKey validAddr fetchOk) := by
  constructor
  · intro c hc
    unfold tradeSdkCall at hc
    split_ifs at hc <;> simp_all
  · intro d
    rfl

/-- C10 witness: selling 5/2 units passes raw amount
⌊(5/2) * 10^18⌋ = 2500000000000000000 to burnDecisionTokensDerived,
unchanged when --decimals is 18 instead of the default 6. -/
theorem tradeSdkCall_sell_scales_18_witness :
    TradeCall.burnDecisionTokensDerived false 2500000000000000000 =
      .burnDecisionTokensDerived (("NO" : String) == "YES")
        ⌊(5 / 2 : ℚ) * 10 ^ 18⌋ ∧
    tradeSdkCall ⟨"Mkt", "sell", "NO", 5 / 2, 18, false, false⟩ true true true =
      tradeSdkCall ⟨"Mkt", "sell", "NO", 5 / 2, 6, false, false⟩ true true true := by
  have h := tradeSdkCall_sell_scales_18
    ⟨"Mkt", "sell", "NO", 5 / 2, 6, false, false⟩ true true true rfl
  refine ⟨h.1 (.burnDecisionTokensDerived false 2500000000000000000) ?_, h.2 18⟩
  norm_num [tradeSdkCall]
  refine ⟨by decide, ?_⟩
  rw [if_neg (by decide : ¬("sell" : String) = "buy")]
  decide

end PnP
